import Mathlib

/-!
# Daily Board — verification of the synchronization core

A shallow embedding of the synchronization core of the `daily-board`
repository (`app.js`, `sync-providers.js`), with theorems settling the
frozen claims about conflict detection, offline queueing, adapter error
mapping and the local-storage fallback.

Conventions of the embedding:

* JavaScript objects holding the synchronized document are modelled by
  `Document` (all three top-level fields present) and `RawDoc` (a parsed
  JSON body in which any of the three fields may be missing, an `Option`
  per field).  JS object maps become association lists.
* Network I/O is modelled by environment values: each outbound request
  outcome (success payload, HTTP status, network failure) is an input
  to the embedded function.  Each issued request is recorded in an event
  trace together with the value of the `isSyncing` flag at the moment the
  request is issued.
* `localStorage` is the `LocalStore` record; JSON round-tripping through
  it is modelled as the identity on the stored values.
* Exceptions thrown inside the `try` block of `updateDataToGitHub` are
  modelled explicitly: every `throw` site routes to the embedded `catch`
  handler (`githubCatch`), so the embedded function is total exactly the
  way the JS function always resolves.
-/

namespace DailyBoard

/-! ## Data model (spec §3, `app.js` lines 10-15, 848-886) -/

/-- A tab: `{id, name}`. -/
structure Tab where
  id : String
  name : String
deriving DecidableEq, Repr

/-- A task: `{name, completed, priority?}`.  The `priority` key may be
absent (`none`), `some false` or `some true`. -/
structure Task where
  name : String
  completed : Bool
  priority : Option Bool := none
deriving DecidableEq, Repr

/-- JS truthiness of an optional boolean field (`task.priority` is truthy
exactly when it is present and `true`). -/
def truthy (o : Option Bool) : Bool := o.getD false

/-- A day record: `{disciplines, tasks}`.  Discipline indices are mapped
to booleans; the claims only concern `tasks`. -/
structure DateEntry where
  disciplines : List (Nat × Bool) := []
  tasks : List Task := []
deriving DecidableEq, Repr

/-- A parsed JSON document body in which top-level fields may be missing
(`JSON.parse` output before `initializeDataStructure`). -/
structure RawDoc where
  dateEntries : Option (List (String × DateEntry)) := none
  tabs : Option (List Tab) := none
  listItems : Option (List (String × String)) := none
deriving DecidableEq, Repr

/-- The complete synchronized document: all three top-level fields. -/
structure Document where
  dateEntries : List (String × DateEntry) := []
  tabs : List Tab := []
  listItems : List (String × String) := []
deriving DecidableEq, Repr

/-- `{dateEntries:{}, tabs:[], listItems:{}}`. -/
def emptyDocument : Document := {}

/-- A `RawDoc` has all three top-level fields present. -/
def RawDoc.complete (p : RawDoc) : Bool :=
  p.dateEntries.isSome && p.tabs.isSome && p.listItems.isSome

/-- The complete `RawDoc` literal `{dateEntries:{}, tabs:[], listItems:{}}`
returned by the adapters on their not-found paths. -/
def emptyRawDoc : RawDoc :=
  { dateEntries := some [], tabs := some [], listItems := some [] }

/-! ## Association-list operations (JS object key access/assignment) -/

/-- `m[k]` on a JS object modelled as an association list. -/
def alookup {α : Type} : List (String × α) → String → Option α
  | [], _ => none
  | (k, v) :: rest, key => if k = key then some v else alookup rest key

/-- `m[k] = v` on a JS object: replace the binding if the key exists,
append it otherwise. -/
def aset {α : Type} : List (String × α) → String → α → List (String × α)
  | [], key, v => [(key, v)]
  | (k, w) :: rest, key, v =>
      if k = key then (key, v) :: rest else (k, w) :: aset rest key v

/-! ## `initializeDataStructure` (`app.js` lines 419-433)

```
function initializeDataStructure(data) {
    if (!data) { data = {}; }
    if (!data.listItems) { data.listItems = {}; }
    if (!data.tabs) { data.tabs = []; }
    if (!data.dateEntries) { data.dateEntries = {}; }
    return data;
}
```
A falsy argument becomes `{}`; each missing (or falsy) field is filled
with its empty default. -/

def initializeDataStructure : Option RawDoc → Document
  | none => emptyDocument
  | some p =>
      { dateEntries := p.dateEntries.getD []
        tabs := p.tabs.getD []
        listItems := p.listItems.getD [] }

/-! ## Dropbox adapter (`sync-providers.js` lines 33-149)

`fileRev` is the recorded Dropbox `rev`; `accessToken` is modelled as a
presence flag. -/

structure DbxState where
  accessToken : Bool
  fileRev : Option String := none
deriving DecidableEq, Repr

/-- Outcome of the `files/download` request. -/
inductive DbxFetchOutcome where
  /-- Network-level failure (fetch rejected). -/
  | netFail
  /-- HTTP response with `!response.ok` and this status. -/
  | status (n : Nat)
  /-- Success; `rev` is the `Dropbox-API-Result` metadata rev header
  (absent when the header is missing) and `body` the parsed JSON. -/
  | ok (rev : Option String) (body : RawDoc)
deriving Repr

/-- `DropboxSyncProvider.fetchData` (lines 69-113): a 409 status is the
Dropbox file-not-found signal and returns the literal empty structure;
any other failure propagates as an error; on success the rev header is
recorded and the parsed body is returned unchanged. -/
def DropboxSyncProvider.fetchData (env : DbxFetchOutcome) (st : DbxState) :
    DbxState × Except String RawDoc :=
  if !st.accessToken then
    (st, .error "Dropbox access token not configured")
  else
    match env with
    | .netFail => (st, .error "Dropbox download failed: network error")
    | .status n =>
        if n = 409 then (st, .ok emptyRawDoc)
        else (st, .error ("Dropbox download failed: " ++ toString n))
    | .ok rev body =>
        let st' := match rev with
          | some r => { st with fileRev := some r }
          | none => st
        (st', .ok body)

/-- The fields of the `Dropbox-API-Arg` header of the upload request that
concern versioning.  The source sends `mode: 'overwrite'` and no `rev`
(`sync-providers.js` lines 127-132, comment: "Always overwrite for
simplicity"). -/
structure DbxUploadArg where
  mode : String
  revArg : Option String
deriving DecidableEq, Repr

/-- Outcome of the `files/upload` request. -/
inductive DbxUploadOutcome where
  | netFail
  | status (n : Nat)
  /-- Success; `newRev` is the rev of the written revision. -/
  | ok (newRev : String)
deriving Repr

/-- `DropboxSyncProvider.updateData` (lines 115-149).  Returns the state,
the upload request argument issued (`none` when no request was made),
and the result. -/
def DropboxSyncProvider.updateData (env : DbxUploadOutcome) (st : DbxState) :
    DbxState × Option DbxUploadArg × Except String Bool :=
  if !st.accessToken then
    (st, none, .error "Dropbox access token not configured")
  else
    let arg : DbxUploadArg := { mode := "overwrite", revArg := none }
    match env with
    | .netFail => (st, some arg, .error "Dropbox upload failed: network error")
    | .status n => (st, some arg, .error ("Dropbox upload failed: " ++ toString n))
    | .ok newRev => ({ st with fileRev := some newRev }, some arg, .ok true)

/-! ## Authenticated Google Drive adapter (`sync-providers.js` lines 156-313) -/

/-- Outcome of the Drive fetch sequence (`findOrCreateFile` then the
`alt=media` download). -/
inductive DriveFetchOutcome where
  /-- The file search or creation step failed. -/
  | searchFail (n : Nat)
  /-- The download returned `!response.ok` with this status. -/
  | downloadStatus (n : Nat)
  /-- Network-level failure of the download. -/
  | netFail
  /-- Download succeeded with this parsed body. -/
  | ok (body : RawDoc)
deriving Repr

/-- `GoogleDriveSyncProvider.fetchData` (lines 245-281): a 404 on the
download returns the literal empty structure; other failures propagate;
a successful body is returned unchanged. -/
def GoogleDriveSyncProvider.fetchData (env : DriveFetchOutcome) (token : Bool) :
    Except String RawDoc :=
  if !token then
    .error "Google Drive access token not configured"
  else
    match env with
    | .searchFail n => .error ("Google Drive search failed: " ++ toString n)
    | .netFail => .error "Google Drive download failed: network error"
    | .downloadStatus n =>
        if n = 404 then .ok emptyRawDoc
        else .error ("Google Drive download failed: " ++ toString n)
    | .ok body => .ok body

/-! ## Public Google Drive adapter (`src/unnamed/part_003` lines 300-551) -/

structure DrivePublicState where
  fileId : Bool
  fetchCache : Option RawDoc := none
  lastFetchTime : Option Nat := none
deriving Repr

/-- Outcome of the public-file download. -/
inductive DrivePublicOutcome where
  | timeoutAbort
  | httpFail (n : Nat)
  /-- The body is an HTML error page rather than JSON. -/
  | htmlBody
  | badJson
  | ok (body : RawDoc)
deriving Repr

/-- The field-completion part of `GoogleDrivePublicSyncProvider.fetchData`
(part_003 lines 435-467): each of the three fields, when missing, is
initialized to its empty default.  (The same lines also reset fields of
the wrong JSON type; in this typed embedding a present field is always
well typed, so those resets have no counterpart.) -/
def drivePublicValidate (p : RawDoc) : RawDoc :=
  { dateEntries := some (p.dateEntries.getD [])
    tabs := some (p.tabs.getD [])
    listItems := some (p.listItems.getD []) }

/-- The non-cached path of `GoogleDrivePublicSyncProvider.fetchData`
(part_003 lines 391-487): the download outcome is classified, and a
successful body is validated, cached and returned. -/
def drivePublicFetchFresh (now : Nat) (env : DrivePublicOutcome)
    (st : DrivePublicState) : DrivePublicState × Except String RawDoc :=
  match env with
  | .timeoutAbort =>
      (st, .error "Request timeout: Google Drive file took too long to respond")
  | .httpFail n => (st, .error ("HTTP " ++ toString n))
  | .htmlBody => (st, .error "Received HTML instead of JSON")
  | .badJson => (st, .error "Invalid JSON data")
  | .ok body =>
      let d := drivePublicValidate body
      ({ st with fetchCache := some d, lastFetchTime := some now }, .ok d)

/-- `GoogleDrivePublicSyncProvider.fetchData` (part_003 lines 383-488):
a cache no older than 5000 ms is returned as is; otherwise the fresh
fetch runs. -/
def GoogleDrivePublicSyncProvider.fetchData (now : Nat) (env : DrivePublicOutcome)
    (st : DrivePublicState) : DrivePublicState × Except String RawDoc :=
  match st.fetchCache, st.lastFetchTime with
  | some c, some t =>
      if now - t < 5000 then (st, .ok c)
      else drivePublicFetchFresh now env st
  | some _, none => drivePublicFetchFresh now env st
  | none, _ => drivePublicFetchFresh now env st

/-- `GoogleDrivePublicSyncProvider.updateData` (part_003 lines 497-504):
a read-only no-op returning `false` without throwing. -/
def GoogleDrivePublicSyncProvider.updateData : Except String Bool := .ok false

/-! ## Orchestrator state (`app.js` lines 10-33 and localStorage keys) -/

/-- A Pending Operation (`addToPendingSyncQueue`, lines 201-211):
`{operation, timestamp, data}` where `data` is a deep copy of `appData`. -/
structure QueueItem where
  operation : String
  timestamp : Nat
  data : Document
deriving DecidableEq, Repr

/-- One entry of the rolling error log (`logError`, lines 274-303). -/
structure ErrorEntry where
  context : String
  message : String
deriving DecidableEq, Repr

/-- The durable local key-value store, restricted to the keys the sync
core uses: `dailyBoard_backup`, `dailyBoard_syncQueue`,
`dailyBoard_errorLog` and the legacy `dailyBoard_global_tabs` read by
`loadFromLocalStorageFallback`. -/
structure LocalStore where
  backup : Option Document := none
  syncQueue : Option (List QueueItem) := none
  errorLog : List ErrorEntry := []
  globalTabs : Option (List Tab) := none
deriving DecidableEq, Repr

/-- The module-level mutable state of `app.js`: `appData`, `currentSHA`,
`isSyncing`, `isOffline`, `pendingSyncQueue`, plus the local store. -/
structure AppState where
  appData : Document := emptyDocument
  currentSHA : Option String := none
  isSyncing : Bool := false
  isOffline : Bool := false
  pendingSyncQueue : List QueueItem := []
  store : LocalStore := {}
deriving DecidableEq, Repr

/-- `logError` (lines 274-303): append the entry, keep only the last 50. -/
def logError (context message : String) (store : LocalStore) : LocalStore :=
  let l := store.errorLog ++ [⟨context, message⟩]
  { store with errorLog := if l.length > 50 then l.drop (l.length - 50) else l }

/-- `saveToLocalStorage` (lines 730-732): write `appData` under the
backup key. -/
def saveToLocalStorage (d : Document) (store : LocalStore) : LocalStore :=
  { store with backup := some d }

/-! ## Network events

Every outbound request the orchestrator issues is recorded, tagged with
the value of `isSyncing` at the moment the request starts. -/

inductive Event where
  /-- The metadata GET inside `checkRemoteSHA`. -/
  | checkShaReq (syncing : Bool)
  /-- The PUT of the timestamped repository backup (`createBackup`). -/
  | backupPut (syncing : Bool)
  /-- The metadata GET refreshing the SHA just before the write. -/
  | metaGet (syncing : Bool)
  /-- The PUT of `data.json`; `sha` is the version token presented in the
  request body. -/
  | putData (sha : Option String) (syncing : Bool)
  /-- The `confirm` dialog of the conflict branch. -/
  | confirmPrompt
  /-- The metadata GET inside `fetchDataFromGitHub`. -/
  | fetchMeta (syncing : Bool)
deriving DecidableEq, Repr

/-- Is this event a write of `data.json`? -/
def Event.isPut : Event → Bool
  | .putData _ _ => true
  | _ => false

/-- Is this event the conflict dialog? -/
def Event.isPrompt : Event → Bool
  | .confirmPrompt => true
  | _ => false

/-! ## Request outcomes supplied by the environment -/

/-- Outcome of the GET inside `checkRemoteSHA` (lines 333-361). -/
inductive CheckOutcome where
  /-- fetch rejected, or the response body was not JSON. -/
  | err (msg : String)
  /-- `!metaResponse.ok` with this status. -/
  | httpFail (status : Nat)
  | ok (sha : String)
deriving Repr

/-- Outcome of the metadata GET inside `fetchDataFromGitHub`
(lines 441-502).  The constructors carrying a `sha` are failures that
occur after `currentSHA` has already been overwritten (line 463). -/
inductive FetchOutcome where
  | netFail
  | httpFail (status : Nat)
  /-- Response lacked a `content` field. -/
  | noContent (sha : String)
  /-- `atob` failed on the content. -/
  | badBase64 (sha : String)
  /-- `JSON.parse` failed on the decoded content. -/
  | badJson (sha : String)
  | ok (sha : String) (body : RawDoc)
deriving Repr

/-- Outcome of the SHA-refresh GET just before the write (lines 574-594). -/
inductive RefetchOutcome where
  | ok (sha : String)
  | fail (status : Nat)
deriving Repr

/-- Outcome of the `data.json` PUT (lines 602-630). -/
inductive PutOutcome where
  | ok (newSha : String)
  /-- `!response.ok`; `apiMsg` is `errorData.message` of the JSON error
  body (the source substitutes "Unknown error" when absent). -/
  | fail (status : Nat) (apiMsg : String)
  /-- `!response.ok` and the error body was not parseable JSON, so the
  `response.json()` on line 622 throws before `errorType` is set. -/
  | failNonJson (status : Nat)
deriving Repr

/-- The environment of one `updateDataToGitHub` call: the outcome of each
request it may issue, the `confirm` answer (`true` = OK = fetch latest),
and the environment of the nested `fetchDataFromGitHub` of the
conflict-refetch path. -/
structure UpdateEnv where
  check : CheckOutcome
  backupOk : Bool := true
  refetch : RefetchOutcome
  put : PutOutcome
  userChoice : Bool := true
  fetch : FetchOutcome := .netFail
deriving Repr

/-- How one `updateDataToGitHub` call ended. -/
inductive UOutcome where
  /-- Offline: queued and returned (lines 507-513). -/
  | queuedOffline
  /-- `isSyncing` was set: skipped (lines 515-518). -/
  | skipped
  /-- Conflict surfaced, user chose to fetch the remote (lines 548-557). -/
  | conflictRefetched
  /-- The write reached the remote (lines 629-636). -/
  | success
  /-- The catch block ran (lines 637-667); carries `errorType`,
  `httpStatus` and the user-facing message it builds. -/
  | failed (errorType : Option String) (httpStatus : Option Nat) (userMessage : String)
deriving DecidableEq, Repr

/-- Result of one embedded `updateDataToGitHub` call. -/
structure RunResult where
  state : AppState
  events : List Event
  outcome : UOutcome
deriving Repr

/-! ## `checkRemoteSHA`, `loadFromLocalStorageFallback`, `fetchDataFromGitHub` -/

/-- `checkRemoteSHA` (lines 333-361): returns the remote SHA or `null`;
failures are logged under the `checkRemoteSHA` context and swallowed. -/
def checkRemoteSHA (env : CheckOutcome) (syncing : Bool) (store : LocalStore) :
    Option String × LocalStore × List Event :=
  let ev := [Event.checkShaReq syncing]
  match env with
  | .ok sha => (some sha, store, ev)
  | .httpFail st =>
      (none, logError "checkRemoteSHA" ("Failed to check remote SHA: " ++ toString st) store, ev)
  | .err msg => (none, logError "checkRemoteSHA" msg store, ev)

/-- `loadFromLocalStorageFallback` (lines 712-728): builds a document
from the legacy `dailyBoard_global_tabs` key only (NOT from the backup
key) and completes it with `initializeDataStructure`. -/
def loadFromLocalStorageFallback (store : LocalStore) : Document :=
  initializeDataStructure
    (some { dateEntries := none, tabs := store.globalTabs, listItems := none })

/-- The catch block of `fetchDataFromGitHub` (lines 494-502): log, then
return the localStorage fallback; `appData` is left untouched. -/
def fetchFail (s : AppState) (msg : String) (ev : List Event) :
    AppState × Document × List Event :=
  let s' := { s with store := logError "fetchDataFromGitHub" msg s.store }
  (s', loadFromLocalStorageFallback s'.store, ev)

/-- `fetchDataFromGitHub` (lines 441-503): one metadata GET; on success
`currentSHA` is recorded, the body completed by
`initializeDataStructure` and assigned to `appData`; on any failure the
error is logged and the localStorage fallback returned.  Note that
`currentSHA` is overwritten (line 463) before the content is validated,
so the post-SHA failures keep the new SHA. -/
def fetchDataFromGitHub (env : FetchOutcome) (s : AppState) :
    AppState × Document × List Event :=
  let ev := [Event.fetchMeta s.isSyncing]
  match env with
  | .netFail => fetchFail s "Failed to fetch metadata: network error" ev
  | .httpFail st => fetchFail s ("Failed to fetch metadata: " ++ toString st) ev
  | .noContent sha =>
      fetchFail { s with currentSHA := some sha } "No content found in API response" ev
  | .badBase64 sha =>
      fetchFail { s with currentSHA := some sha } "Failed to decode base64 content" ev
  | .badJson sha =>
      fetchFail { s with currentSHA := some sha } "Failed to parse JSON content" ev
  | .ok sha body =>
      let d := initializeDataStructure (some body)
      ({ s with currentSHA := some sha, appData := d }, d, ev)

/-! ## `updateDataToGitHub` (lines 505-668) -/

/-- The user-facing message of the catch block (lines 642-659). -/
def buildErrorMessage (errorType : Option String) (httpStatus : Option Nat)
    (errMsg : String) : String :=
  let base := "Failed to save data to GitHub. Changes saved locally."
  if errorType = some "NO_TOKEN" then base ++ " (GitHub token not configured)"
  else if errorType = some "FETCH_SHA_FAILED" then
    base ++ " (Unable to fetch file metadata - check token permissions)"
  else if httpStatus = some 401 then base ++ " (Authentication failed - check token)"
  else if httpStatus = some 403 then base ++ " (Access denied - check token permissions)"
  else if httpStatus = some 404 then base ++ " (File not found - check repository and path)"
  else if httpStatus = some 409 then base ++ " (Conflict - file was modified elsewhere)"
  else if errMsg = "" then base
  else base ++ " (" ++ errMsg ++ ")"

/-- The catch block of `updateDataToGitHub` (lines 637-667): clear the
flag, log under the `updateDataToGitHub` context, show the classified
message, and save `appData` to the local backup. -/
def githubCatch (s : AppState) (errorType : Option String) (httpStatus : Option Nat)
    (errMsg : String) (events : List Event) : RunResult :=
  let store := logError "updateDataToGitHub" errMsg s.store
  let store := saveToLocalStorage s.appData store
  { state := { s with isSyncing := false, store := store }
    events := events
    outcome := .failed errorType httpStatus (buildErrorMessage errorType httpStatus errMsg) }

/-- The write phase of `updateDataToGitHub` (lines 565-636), entered
either straight from the conflict check or from the force-save choice:
create the repository backup (its failure only warns), refresh the SHA
(adopting whatever the server returns), then PUT with that SHA.  The
events record `s.isSyncing` as it stands on entry: `true` on the normal
path, `false` after the conflict branch cleared it (line 537). -/
def githubWritePhase (env : UpdateEnv) (s : AppState) (evs : List Event) : RunResult :=
  let evs := evs ++ [Event.backupPut s.isSyncing]
  let evs := evs ++ [Event.metaGet s.isSyncing]
  match env.refetch with
  | .fail st =>
      githubCatch s (some "FETCH_SHA_FAILED") (some st)
        ("Failed to fetch file SHA (status: " ++ toString st ++ ")") evs
  | .ok sha =>
      let s := { s with currentSHA := some sha }
      let evs := evs ++ [Event.putData s.currentSHA s.isSyncing]
      match env.put with
      | .ok newSha =>
          let s := { s with currentSHA := some newSha, isSyncing := false }
          let s := { s with store := saveToLocalStorage s.appData s.store }
          { state := s, events := evs, outcome := .success }
      | .fail st apiMsg =>
          githubCatch s (some "UPDATE_FAILED") (some st)
            ("Failed to update data (status: " ++ toString st ++ "): " ++ apiMsg) evs
      | .failNonJson st =>
          githubCatch s none (some st) "Failed to parse error response" evs

/-- `updateDataToGitHub` (lines 505-668).  `message` is the commit
message, `now` the clock, `token` whether a GitHub token is configured.
Faithful control flow: offline queueing; `isSyncing` skip; the missing
token throw; `checkRemoteSHA`; the conflict branch (which clears
`isSyncing` before prompting, line 537); and the write phase.  Every
throw site of the source routes through `githubCatch`, so the embedded
function is total — the JS promise always resolves. -/
def updateDataToGitHub (message : String) (now : Nat) (token : Bool)
    (env : UpdateEnv) (s : AppState) : RunResult :=
  if s.isOffline then
    let item : QueueItem := { operation := message, timestamp := now, data := s.appData }
    let q := s.pendingSyncQueue ++ [item]
    let store := { s.store with syncQueue := some q }
    let store := saveToLocalStorage s.appData store
    { state := { s with pendingSyncQueue := q, store := store }
      events := []
      outcome := .queuedOffline }
  else if s.isSyncing then
    { state := s, events := [], outcome := .skipped }
  else
    let s := { s with isSyncing := true }
    if !token then
      githubCatch s (some "NO_TOKEN") none "GitHub token not configured" []
    else
      let (remoteSHA, store1, evs) := checkRemoteSHA env.check s.isSyncing s.store
      let s := { s with store := store1 }
      match remoteSHA, s.currentSHA with
      | some r, some c =>
          if r = c then githubWritePhase env s evs
          else
            let s := { s with isSyncing := false }
            let evs := evs ++ [Event.confirmPrompt]
            if env.userChoice then
              let (s', _, evF) := fetchDataFromGitHub env.fetch s
              { state := s', events := evs ++ evF, outcome := .conflictRefetched }
            else
              githubWritePhase env { s with currentSHA := some r } evs
      | _, _ => githubWritePhase env s evs

/-! ## Offline queue (`app.js` lines 201-267) -/

/-- A default environment for replay attempts past the supplied list
(every request fails). -/
def defaultUpdateEnv : UpdateEnv :=
  { check := .err "network error", refetch := .fail 0, put := .failNonJson 0 }

/-- The body of the `while` loop of `processPendingSyncQueue`
(lines 224-237): shift the head, adopt its snapshot as `appData`, run
`updateDataToGitHub`.  The embedded `updateDataToGitHub` is total (the
JS promise always resolves), so the `catch`/`unshift`/`break` branch of
the loop never runs and every entry is processed.  The recursion walks
the initial queue; this matches the dynamic queue reads because an
online `updateDataToGitHub` never touches `pendingSyncQueue`
(`updateData_online_preserves_queue` below). -/
def processQueueGo (token : Bool) (now : Nat) :
    List QueueItem → List UpdateEnv → AppState → AppState × List Event
  | [], _, s => (s, [])
  | item :: rest, envs, s =>
      let env := envs.headD defaultUpdateEnv
      let s1 := { s with appData := item.data, pendingSyncQueue := rest }
      let r := updateDataToGitHub item.operation now token env s1
      let (s2, evs) := processQueueGo token now rest envs.tail r.state
      (s2, r.events ++ evs)

/-- `processPendingSyncQueue` (lines 216-246): nothing to do on an empty
queue; otherwise drain the queue, then clear the persisted queue key if
the queue emptied (it always does when online) or re-persist it. -/
def processPendingSyncQueue (token : Bool) (now : Nat) (envs : List UpdateEnv)
    (s : AppState) : AppState × List Event :=
  if s.pendingSyncQueue.isEmpty then (s, [])
  else
    let (s', evs) := processQueueGo token now s.pendingSyncQueue envs s
    if s'.pendingSyncQueue.isEmpty then
      ({ s' with store := { s'.store with syncQueue := none } }, evs)
    else
      ({ s' with store := { s'.store with syncQueue := some s'.pendingSyncQueue } }, evs)

/-! ## Process start (`initializeApp`, lines 748-785) -/

/-- `loadPendingSyncQueue` (lines 251-267): hydrate the queue from its
persisted key. -/
def loadPendingSyncQueue (s : AppState) : AppState :=
  { s with pendingSyncQueue := s.store.syncQueue.getD [] }

/-- `loadFromLocalStorage` (lines 734-739): hydrate `appData` from the
backup key when present. -/
def loadFromLocalStorage (s : AppState) : AppState :=
  match s.store.backup with
  | some d => { s with appData := d }
  | none => s

/-- The data part of `initializeApp` (lines 748-785) on a fresh process
whose durable store is `store`: load and (when online and non-empty)
replay the queue, hydrate from the backup, run `fetchDataFromGitHub`,
then create the default tab if no tab survived (saving it remotely only
when a token exists).  Returns the final state, the value returned by
`fetchDataFromGitHub`, and the event trace. -/
def initializeAppData (token : Bool) (now : Nat) (qEnvs : List UpdateEnv)
    (fenv : FetchOutcome) (initEnv : UpdateEnv) (store : LocalStore) :
    AppState × Document × List Event :=
  let s0 : AppState := { store := store }
  let s1 := loadPendingSyncQueue s0
  let (s2, ev1) :=
    if s1.pendingSyncQueue.isEmpty || s1.isOffline then (s1, [])
    else processPendingSyncQueue token now qEnvs s1
  let s3 := loadFromLocalStorage s2
  let (s4, ret, ev2) := fetchDataFromGitHub fenv s3
  let (s5, ev3) :=
    if s4.appData.tabs.isEmpty then
      let s := { s4 with appData := { s4.appData with tabs := [⟨"tab_" ++ toString now, "My List"⟩] } }
      if token then
        let r := updateDataToGitHub "Initialize default tab" now token initEnv s
        (r.state, r.events)
      else (s, [])
    else (s4, [])
  (s5, ret, ev1 ++ ev2 ++ ev3)

/-! ## Task mutations (`app.js` lines 848-858, 1111-1194)

These are the day-record mutations behind claim C8.  Each source
function ends in `saveDateEntry`/`updateDataToGitHub`; the embedding
models the document transformation (the sync side is `updateDataToGitHub`
above). -/

/-- `getDateEntry` (lines 848-856): look the day up, creating an empty
record inside `appData.dateEntries` when absent.  Returns the entry and
the (possibly extended) document. -/
def getDateEntry (d : Document) (k : String) : DateEntry × Document :=
  match alookup d.dateEntries k with
  | some e => (e, d)
  | none =>
      let e : DateEntry := {}
      (e, { d with dateEntries := aset d.dateEntries k e })

/-- `tasks.filter(t => t.priority).length`. -/
def priorityCount (tasks : List Task) : Nat :=
  tasks.countP (fun t => truthy t.priority)

/-- `toggleTaskPriority` (lines 1144-1164): marking a task as priority is
rejected (with an error message, document untouched) when the day already
has 3 priority tasks; otherwise the flag is toggled. -/
def toggleTaskPriority (d : Document) (dateKey : String) (index : Nat) : Document :=
  let (entry, d) := getDateEntry d dateKey
  match entry.tasks.get? index with
  | none => d
  | some task =>
      if truthy task.priority = false ∧ 3 ≤ priorityCount entry.tasks then d
      else
        let task' := { task with priority := some (!truthy task.priority) }
        let entry' := { entry with tasks := entry.tasks.set index task' }
        { d with dateEntries := aset d.dateEntries dateKey entry' }

/-- `shiftTaskDate` (lines 1166-1194): move `tasks[index]` of the source
day to the end of the target day.  The source computes the target key as
`currentDate + direction` with `direction = ±1`, so the target key always
differs from the source key; the embedding takes the computed
`targetDateKey` as a parameter.  No priority-count check is performed on
the target day. -/
def shiftTaskDate (d : Document) (sourceDateKey targetDateKey : String)
    (index : Nat) : Document :=
  let (src, d) := getDateEntry d sourceDateKey
  match src.tasks.get? index with
  | none => d
  | some task =>
      let (tgt, d) := getDateEntry d targetDateKey
      let tgt' := { tgt with tasks := tgt.tasks ++ [task] }
      let src' := { src with tasks := src.tasks.eraseIdx index }
      { d with dateEntries := aset (aset d.dateEntries targetDateKey tgt') sourceDateKey src' }

/-- `addTask` (lines 1111-1124): append `{name, completed: false}` for a
non-empty trimmed name. -/
def addTask (d : Document) (dateKey : String) (taskName : String) : Document :=
  if taskName.trim = "" then d
  else
    let (entry, d) := getDateEntry d dateKey
    let entry' := { entry with
      tasks := entry.tasks ++ [{ name := taskName.trim, completed := false }] }
    { d with dateEntries := aset d.dateEntries dateKey entry' }

/-- `toggleTask` (lines 1126-1134): set the `completed` flag of
`tasks[index]` when it exists. -/
def toggleTask (d : Document) (dateKey : String) (index : Nat)
    (isCompleted : Bool) : Document :=
  let (entry, d) := getDateEntry d dateKey
  match entry.tasks.get? index with
  | none => d
  | some task =>
      let entry' := { entry with
        tasks := entry.tasks.set index { task with completed := isCompleted } }
      { d with dateEntries := aset d.dateEntries dateKey entry' }

/-- `deleteTask` (lines 1136-1142): `tasks.splice(index, 1)`. -/
def deleteTask (d : Document) (dateKey : String) (index : Nat) : Document :=
  let (entry, d) := getDateEntry d dateKey
  let entry' := { entry with tasks := entry.tasks.eraseIdx index }
  { d with dateEntries := aset d.dateEntries dateKey entry' }

/-- The invariant of claim C8: every day record carries at most 3 tasks
with a truthy `priority`. -/
def dayPriorityBound (d : Document) : Bool :=
  d.dateEntries.all (fun kv => decide (priorityCount kv.2.tasks ≤ 3))

/-- Every `data.json` PUT event in a trace presents exactly the token
`shaR` (non-PUT events pass vacuously). -/
def putPresentsSha (shaR : String) : Event → Bool
  | .putData sh _ => decide (sh = some shaR)
  | _ => true

/-! # Theorems settling the claims -/

/-- JS object update: reading the assigned key yields the new value. -/
theorem alookup_aset_self {α : Type} (m : List (String × α)) (k : String) (v : α) :
    alookup (aset m k v) k = some v := by
  induction m with
  | nil => simp [alookup, aset]
  | cons hd tl ih =>
      obtain ⟨k', w⟩ := hd
      by_cases h : k' = k <;> simp [alookup, aset, h, ih]

/-- JS object update: other keys are untouched. -/
theorem alookup_aset_other {α : Type} (m : List (String × α)) (k k' : String) (v : α)
    (h : k' ≠ k) : alookup (aset m k v) k' = alookup m k' := by
  have hkk : k ≠ k' := fun hh => h hh.symm
  induction m with
  | nil => simp [alookup, aset, hkk]
  | cons hd tl ih =>
      obtain ⟨k₀, w⟩ := hd
      by_cases h0 : k₀ = k
      · subst h0
        simp [aset, alookup, hkk]
      · by_cases h1 : k₀ = k' <;> simp [aset, alookup, h0, h1, h, ih]

/-- Fidelity of the queue-replay recursion: an online call to
`updateDataToGitHub` never touches `pendingSyncQueue`, so walking the
initial queue list matches the dynamic queue reads of the source's
`while` loop. -/
theorem updateData_online_preserves_queue (msg : String) (now : Nat) (token : Bool)
    (env : UpdateEnv) (s : AppState) (h : s.isOffline = false) :
    (updateDataToGitHub msg now token env s).state.pendingSyncQueue =
      s.pendingSyncQueue := by
  obtain ⟨chk, bok, ref, put, choice, fet⟩ := env
  cases hsy : s.isSyncing
  · cases token
    · simp [updateDataToGitHub, h, hsy, githubCatch]
    · cases chk with
      | err m =>
          cases ref <;> cases put <;>
            simp [updateDataToGitHub, h, hsy, checkRemoteSHA, githubWritePhase,
              githubCatch]
      | httpFail st =>
          cases ref <;> cases put <;>
            simp [updateDataToGitHub, h, hsy, checkRemoteSHA, githubWritePhase,
              githubCatch]
      | ok r =>
          cases hc : s.currentSHA with
          | none =>
              cases ref <;> cases put <;>
                simp [updateDataToGitHub, h, hsy, checkRemoteSHA, githubWritePhase,
                  githubCatch, hc]
          | some c =>
              by_cases hrc : r = c
              · cases ref <;> cases put <;>
                  simp [updateDataToGitHub, h, hsy, checkRemoteSHA, githubWritePhase,
                    githubCatch, hc, hrc]
              · cases choice
                · cases ref <;> cases put <;>
                    simp [updateDataToGitHub, h, hsy, checkRemoteSHA, githubWritePhase,
                      githubCatch, hc, hrc]
                · cases fet <;>
                    simp [updateDataToGitHub, h, hsy, checkRemoteSHA,
                      fetchDataFromGitHub, fetchFail, hc, hrc]
  · simp [updateDataToGitHub, h, hsy]

/-- C4 — confirmed.  An `updateData` call made while offline appends the
Pending Operation `{operationLabel, timestamp, copy of the document}` to
the offline queue, persists the queue under its dedicated key, saves a
local backup, and returns without issuing any network request. -/
theorem c4_offline_enqueue (msg : String) (now : Nat) (token : Bool)
    (env : UpdateEnv) (s : AppState) (h : s.isOffline = true) :
    let r := updateDataToGitHub msg now token env s
    r.state.pendingSyncQueue = s.pendingSyncQueue ++ [⟨msg, now, s.appData⟩] ∧
    r.state.store.syncQueue = some (s.pendingSyncQueue ++ [⟨msg, now, s.appData⟩]) ∧
    r.events = [] ∧
    r.outcome = .queuedOffline ∧
    r.state.appData = s.appData ∧
    r.state.currentSHA = s.currentSHA := by
  simp [updateDataToGitHub, h, saveToLocalStorage]

/-- Witness for `c4_offline_enqueue` at a concrete offline state. -/
theorem c4_offline_enqueue_witness :
    ({ appData := emptyDocument, isOffline := true } : AppState).isOffline = true ∧
    (let r := updateDataToGitHub "op" 5 true defaultUpdateEnv
        { appData := emptyDocument, isOffline := true }
     r.state.pendingSyncQueue = [] ++ [⟨"op", 5, emptyDocument⟩] ∧
     r.state.store.syncQueue = some ([] ++ [⟨"op", 5, emptyDocument⟩]) ∧
     r.events = [] ∧
     r.outcome = .queuedOffline ∧
     r.state.appData = emptyDocument ∧
     r.state.currentSHA = none) :=
  ⟨rfl, c4_offline_enqueue "op" 5 true defaultUpdateEnv
    { appData := emptyDocument, isOffline := true } rfl⟩

/-- C9 — amended part.  While a write is in flight on the normal path the
`isSyncing` flag is set, and a second online `updateData` call finding the
flag set is skipped: it issues no network request, enqueues nothing,
raises no error, and leaves the whole state (document, version token,
offline queue, local store) unchanged. -/
theorem c9_skip_when_syncing (msg : String) (now : Nat) (token : Bool)
    (env : UpdateEnv) (s : AppState)
    (hoff : s.isOffline = false) (hsync : s.isSyncing = true) :
    updateDataToGitHub msg now token env s = ⟨s, [], .skipped⟩ := by
  simp [updateDataToGitHub, hoff, hsync]

/-- Witness for `c9_skip_when_syncing` at a concrete mid-write state. -/
theorem c9_skip_when_syncing_witness :
    ({ appData := emptyDocument, isSyncing := true } : AppState).isOffline = false ∧
    ({ appData := emptyDocument, isSyncing := true } : AppState).isSyncing = true ∧
    updateDataToGitHub "op" 5 true defaultUpdateEnv
        { appData := emptyDocument, isSyncing := true } =
      ⟨{ appData := emptyDocument, isSyncing := true }, [], .skipped⟩ :=
  ⟨rfl, rfl, c9_skip_when_syncing "op" 5 true defaultUpdateEnv
    { appData := emptyDocument, isSyncing := true } rfl rfl⟩

/-- C9 — counterexample to the claim as stated.  The conflict branch
clears `isSyncing` before the `confirm` prompt (line 537) and never sets
it again on the force-save path, so the forced `data.json` PUT is issued
with the flag clear: a concurrent `updateData` call at that moment would
not be skipped, and the flag does not ensure that no two remote writes
are in flight.  The trace below records the PUT with `syncing = false`. -/
theorem c9_counterexample :
    (updateDataToGitHub "op" 7 true
        { check := .ok "sha2", refetch := .ok "sha2", put := .ok "sha3",
          userChoice := false }
        { appData := { tabs := [⟨"t1", "List"⟩] }, currentSHA := some "sha1" }).events =
      [.checkShaReq true, .confirmPrompt, .backupPut false, .metaGet false,
       .putData (some "sha2") false] ∧
    (updateDataToGitHub "op" 7 true
        { check := .ok "sha2", refetch := .ok "sha2", put := .ok "sha3",
          userChoice := false }
        { appData := { tabs := [⟨"t1", "List"⟩] }, currentSHA := some "sha1" }).outcome =
      .success := by
  constructor <;> rfl

/-- C1 — counterexample to the claim as stated.  Stored token `sha1`, the
server holds `sha2` throughout the call.  The `checkRemoteSHA` request
fails (returns null), so the conflict branch is skipped; the pre-write
SHA refresh succeeds, silently adopts the remote token `sha2`, and the
PUT overwrites the remote document: no conflict choice is surfaced
although the server token differed from the stored token at write time. -/
theorem c1_counterexample :
    (updateDataToGitHub "op" 7 true
        { check := .err "network error", refetch := .ok "sha2", put := .ok "sha3" }
        { appData := { tabs := [⟨"t1", "List"⟩] }, currentSHA := some "sha1" }).events.any
        Event.isPrompt = false ∧
    (updateDataToGitHub "op" 7 true
        { check := .err "network error", refetch := .ok "sha2", put := .ok "sha3" }
        { appData := { tabs := [⟨"t1", "List"⟩] }, currentSHA := some "sha1" }).events.any
        Event.isPut = true ∧
    (updateDataToGitHub "op" 7 true
        { check := .err "network error", refetch := .ok "sha2", put := .ok "sha3" }
        { appData := { tabs := [⟨"t1", "List"⟩] }, currentSHA := some "sha1" }).outcome =
      .success := by
  refine ⟨rfl, rfl, rfl⟩

/-- C2 — counterexample to the claim as stated.  Dropbox is named by the
claim as version-aware, yet `DropboxSyncProvider.updateData` uploads with
`mode: overwrite` and presents no `rev` at all: with last-known rev
`rev1` recorded, the write succeeds as a plain unversioned overwrite
(whatever revision the server holds) instead of failing on a stale
token. -/
theorem c2_counterexample :
    (DropboxSyncProvider.updateData (.ok "rev2") ⟨true, some "rev1"⟩).2.1 =
      some { mode := "overwrite", revArg := none } ∧
    (DropboxSyncProvider.updateData (.ok "rev2") ⟨true, some "rev1"⟩).2.2 = .ok true := by
  constructor <;> rfl

/-- C5 — counterexample to the claim as stated.  Writing
`{tabs:[{id:"t1",name:"List"}], ...}` with no credentials stores it under
the backup key, but after a restart a failing `fetchData` returns
`loadFromLocalStorageFallback`, which reads only the legacy
`dailyBoard_global_tabs` key: the returned document is the empty one, not
the document that was written.  (The written document does survive — in
`appData`, hydrated by `loadFromLocalStorage`; see `c5_local_fallback`.) -/
theorem c5_counterexample :
    (initializeAppData false 0 [] .netFail defaultUpdateEnv
        (updateDataToGitHub "Update data" 0 false defaultUpdateEnv
          { appData := { tabs := [⟨"t1", "List"⟩] } }).state.store).2.1 =
      emptyDocument ∧
    (initializeAppData false 0 [] .netFail defaultUpdateEnv
        (updateDataToGitHub "Update data" 0 false defaultUpdateEnv
          { appData := { tabs := [⟨"t1", "List"⟩] } }).state.store).2.1 ≠
      ({ tabs := [⟨"t1", "List"⟩] } : Document) := by
  constructor
  · rfl
  · decide

/-- C6 — counterexample to the claim as stated.  A successful Dropbox
fetch returns the parsed body unchanged: a stored document missing
`dateEntries` and `listItems` comes back still missing them. -/
theorem c6_counterexample :
    (DropboxSyncProvider.fetchData
        (.ok none { tabs := some [⟨"t1", "L"⟩] }) ⟨true, none⟩).2 =
      .ok { tabs := some [⟨"t1", "L"⟩] } ∧
    RawDoc.complete { tabs := some [⟨"t1", "L"⟩] } = false := by
  constructor <;> rfl

/-- C7 — counterexample to the claim as stated.  On the GitHub path a 404
is handled like any other fetch failure: the orchestrator returns the
localStorage fallback, and when the legacy `dailyBoard_global_tabs` key
holds tabs the result is NOT the empty Document. -/
theorem c7_counterexample :
    (fetchDataFromGitHub (.httpFail 404)
        { store := { globalTabs := some [⟨"x", "X"⟩] } }).2.1 =
      ({ tabs := [⟨"x", "X"⟩] } : Document) ∧
    (fetchDataFromGitHub (.httpFail 404)
        { store := { globalTabs := some [⟨"x", "X"⟩] } }).2.1 ≠ emptyDocument := by
  constructor
  · rfl
  · decide

/-- C8 — counterexample to the claim as stated.  `shiftTaskDate` performs
no priority check on the target day: moving a priority task from
2025-01-02 into 2025-01-01, which already holds 3 priority tasks, leaves
the target day with 4 tasks marked `priority: true`. -/
theorem c8_counterexample :
    dayPriorityBound
        { dateEntries :=
            [("2025-01-01",
              { tasks := [⟨"p1", false, some true⟩, ⟨"p2", false, some true⟩,
                          ⟨"p3", false, some true⟩] }),
             ("2025-01-02", { tasks := [⟨"p4", false, some true⟩] })] } = true ∧
    dayPriorityBound
        (shiftTaskDate
          { dateEntries :=
              [("2025-01-01",
                { tasks := [⟨"p1", false, some true⟩, ⟨"p2", false, some true⟩,
                            ⟨"p3", false, some true⟩] }),
               ("2025-01-02", { tasks := [⟨"p4", false, some true⟩] })] }
          "2025-01-02" "2025-01-01" 0) = false := by
  constructor <;> rfl

/-- C3 — evaluation at the failing input of the code-bug claim.  Two
operations A then B are queued; the replay environment makes the write of
A fail (its PUT returns 500) and that of B succeed.  Because
`updateDataToGitHub` resolves normally even on failure, the loop of
`processPendingSyncQueue` never hits its catch: A is removed for good
(its failure only logged), B is attempted anyway, both PUTs appear in the
trace, the queue drains and its persisted key is removed — contradicting
the claimed re-insert-at-front-and-halt behaviour (and the dead
`catch`/`unshift`/`break` branch of the source, lines 231-236). -/
theorem c3_replay_drops_failed_entry :
    let qA : QueueItem := ⟨"opA", 1, { tabs := [⟨"a", "A"⟩] }⟩
    let qB : QueueItem := ⟨"opB", 2, { tabs := [⟨"b", "B"⟩] }⟩
    let r := processPendingSyncQueue true 9
      [{ check := .ok "s1", refetch := .ok "s1", put := .fail 500 "boom" },
       { check := .ok "s1", refetch := .ok "s1", put := .ok "s2" }]
      { appData := { tabs := [⟨"t1", "List"⟩] }, currentSHA := some "s1",
        pendingSyncQueue := [qA, qB], store := { syncQueue := some [qA, qB] } }
    r.1.pendingSyncQueue = [] ∧
    r.1.store.syncQueue = none ∧
    r.1.appData = ({ tabs := [⟨"b", "B"⟩] } : Document) ∧
    (r.2.filter Event.isPut).length = 2 ∧
    r.1.store.errorLog =
      [⟨"updateDataToGitHub", "Failed to update data (status: 500): boom"⟩] := by
  refine ⟨rfl, rfl, rfl, rfl, rfl⟩

/-- C1 — amended part.  When the pre-write `checkRemoteSHA` request
succeeds and returns a server token differing from the existing stored
token, `updateDataToGitHub` surfaces the binary conflict prompt; and if
the user chooses to fetch the remote for manual merge, no `data.json`
write is issued at all in that call. -/
theorem c1_conflict_prompt (msg : String) (now : Nat) (env : UpdateEnv)
    (s : AppState) (r c : String)
    (hoff : s.isOffline = false) (hsync : s.isSyncing = false)
    (hcur : s.currentSHA = some c) (hchk : env.check = .ok r) (hne : r ≠ c) :
    (updateDataToGitHub msg now true env s).events.any Event.isPrompt = true ∧
    (env.userChoice = true →
      (updateDataToGitHub msg now true env s).events.any Event.isPut = false) := by
  obtain ⟨chk, bok, ref, put, choice, fet⟩ := env
  cases hchk
  simp only [updateDataToGitHub, hoff, hsync, hcur, checkRemoteSHA]
  simp only [Bool.false_eq_true, if_false, if_true, Bool.not_true]
  simp [hne]
  cases choice
  · -- force save: the prompt is in the trace; the put hypothesis is vacuous
    cases ref <;> cases put <;>
      simp [githubWritePhase, githubCatch, Event.isPrompt]
  · -- fetch latest: the prompt is in the trace and no data.json PUT occurs
    cases fet <;>
      simp [fetchDataFromGitHub, fetchFail, Event.isPrompt, Event.isPut]

/-- Witness for `c1_conflict_prompt` at a concrete conflicted state. -/
theorem c1_conflict_prompt_witness :
    ({ currentSHA := some "sha1" } : AppState).isOffline = false ∧
    ({ currentSHA := some "sha1" } : AppState).isSyncing = false ∧
    ({ currentSHA := some "sha1" } : AppState).currentSHA = some "sha1" ∧
    ({ check := .ok "sha2", refetch := .ok "sha2", put := .ok "sha3" } : UpdateEnv).check =
      .ok "sha2" ∧
    "sha2" ≠ "sha1" ∧
    ((updateDataToGitHub "op" 7 true
        { check := .ok "sha2", refetch := .ok "sha2", put := .ok "sha3" }
        { currentSHA := some "sha1" }).events.any Event.isPrompt = true ∧
     (({ check := .ok "sha2", refetch := .ok "sha2", put := .ok "sha3" } :
        UpdateEnv).userChoice = true →
      (updateDataToGitHub "op" 7 true
        { check := .ok "sha2", refetch := .ok "sha2", put := .ok "sha3" }
        { currentSHA := some "sha1" }).events.any Event.isPut = false)) :=
  ⟨rfl, rfl, rfl, rfl, by decide,
    c1_conflict_prompt "op" 7
      { check := .ok "sha2", refetch := .ok "sha2", put := .ok "sha3" }
      { currentSHA := some "sha1" } "sha2" "sha1" rfl rfl rfl rfl (by decide)⟩

/-- C5 — amended part.  With no credentials and an empty local store,
`updateData` on a document lands it in the local backup via the failure
path; after a restart with an unreachable backend, `loadFromLocalStorage`
rehydrates `appData` from that backup before the fetch, and the failing
`fetchData` leaves it intact — so the in-memory document equals the one
written.  The return value of `fetchData` itself, however, is the empty
document coming from the legacy-tabs fallback. -/
theorem c5_local_fallback (doc : Document) (h : doc.tabs ≠ []) :
    (updateDataToGitHub "Update data" 0 false defaultUpdateEnv
        { appData := doc }).state.store.backup = some doc ∧
    (initializeAppData false 0 [] .netFail defaultUpdateEnv
        (updateDataToGitHub "Update data" 0 false defaultUpdateEnv
          { appData := doc }).state.store).1.appData = doc ∧
    (initializeAppData false 0 [] .netFail defaultUpdateEnv
        (updateDataToGitHub "Update data" 0 false defaultUpdateEnv
          { appData := doc }).state.store).2.1 = emptyDocument := by
  have htabs : doc.tabs.isEmpty = false := by
    cases hd : doc.tabs with
    | nil => exact absurd hd h
    | cons a l => simp [hd]
  refine ⟨rfl, ?_, ?_⟩ <;>
    simp [updateDataToGitHub, githubCatch, logError, saveToLocalStorage,
      initializeAppData, loadPendingSyncQueue, loadFromLocalStorage,
      fetchDataFromGitHub, fetchFail, loadFromLocalStorageFallback,
      initializeDataStructure, htabs, emptyDocument]

/-- Witness for `c5_local_fallback` at the document of the spec
scenario. -/
theorem c5_local_fallback_witness :
    ({ tabs := [⟨"t1", "List"⟩] } : Document).tabs ≠ [] ∧
    ((updateDataToGitHub "Update data" 0 false defaultUpdateEnv
        { appData := { tabs := [⟨"t1", "List"⟩] } }).state.store.backup =
      some { tabs := [⟨"t1", "List"⟩] } ∧
     (initializeAppData false 0 [] .netFail defaultUpdateEnv
        (updateDataToGitHub "Update data" 0 false defaultUpdateEnv
          { appData := { tabs := [⟨"t1", "List"⟩] } }).state.store).1.appData =
      { tabs := [⟨"t1", "List"⟩] } ∧
     (initializeAppData false 0 [] .netFail defaultUpdateEnv
        (updateDataToGitHub "Update data" 0 false defaultUpdateEnv
          { appData := { tabs := [⟨"t1", "List"⟩] } }).state.store).2.1 =
      emptyDocument) :=
  ⟨by decide, c5_local_fallback { tabs := [⟨"t1", "List"⟩] } (by decide)⟩

/-- C6 — amended part.  Missing top-level fields are defaulted on the
GitHub orchestrator fetch path (`initializeDataStructure`) and by the
Drive-public adapter; the Dropbox adapter completes the document only on
its not-found path, returning a successfully parsed body unchanged
otherwise (see `c6_counterexample`). -/
theorem c6_schema_completion :
    (∀ (sha : String) (body : RawDoc) (s : AppState),
      (fetchDataFromGitHub (.ok sha body) s).2.1 =
        { dateEntries := body.dateEntries.getD [], tabs := body.tabs.getD [],
          listItems := body.listItems.getD [] } ∧
      (fetchDataFromGitHub (.ok sha body) s).1.appData =
        (fetchDataFromGitHub (.ok sha body) s).2.1) ∧
    (∀ (now : Nat) (body : RawDoc) (st : DrivePublicState),
      (drivePublicFetchFresh now (.ok body) st).2 = .ok (drivePublicValidate body) ∧
      (drivePublicValidate body).complete = true) ∧
    (∀ st : DbxState, st.accessToken = true →
      (DropboxSyncProvider.fetchData (.status 409) st).2 = .ok emptyRawDoc ∧
      emptyRawDoc.complete = true) := by
  refine ⟨fun sha body s => ⟨rfl, rfl⟩, fun now body st => ⟨rfl, ?_⟩, fun st h => ⟨?_, rfl⟩⟩
  · simp [drivePublicValidate, RawDoc.complete]
  · simp [DropboxSyncProvider.fetchData, h]

/-- Witness for `c6_schema_completion`, discharging the token hypothesis
of the Dropbox conjunct at a concrete adapter state. -/
theorem c6_schema_completion_witness :
    ((⟨true, none⟩ : DbxState).accessToken = true) ∧
    ((DropboxSyncProvider.fetchData (.status 409) ⟨true, none⟩).2 = .ok emptyRawDoc ∧
      emptyRawDoc.complete = true) :=
  ⟨rfl, c6_schema_completion.2.2 ⟨true, none⟩ rfl⟩

/-- C7 — amended part.  Dropbox (409) and authenticated Drive (404) map
file-not-found to the empty document without failing; the GitHub
orchestrator handles 404 through its generic failure path, which yields
the empty document exactly when the legacy `dailyBoard_global_tabs` key
is absent (see `c7_counterexample` for the other case). -/
theorem c7_not_found_empty :
    (∀ st : DbxState, st.accessToken = true →
      DropboxSyncProvider.fetchData (.status 409) st = (st, .ok emptyRawDoc)) ∧
    (GoogleDriveSyncProvider.fetchData (.downloadStatus 404) true = .ok emptyRawDoc) ∧
    (∀ s : AppState, s.store.globalTabs = none →
      (fetchDataFromGitHub (.httpFail 404) s).2.1 = emptyDocument) := by
  refine ⟨fun st h => ?_, rfl, fun s h => ?_⟩
  · simp [DropboxSyncProvider.fetchData, h]
  · simp [fetchDataFromGitHub, fetchFail, loadFromLocalStorageFallback,
      initializeDataStructure, logError, h, emptyDocument]

/-- Witness for `c7_not_found_empty`, discharging both hypotheses at
concrete states. -/
theorem c7_not_found_empty_witness :
    ((⟨true, none⟩ : DbxState).accessToken = true) ∧
    DropboxSyncProvider.fetchData (.status 409) ⟨true, none⟩ =
      (⟨true, none⟩, .ok emptyRawDoc) ∧
    (({} : AppState).store.globalTabs = none) ∧
    (fetchDataFromGitHub (.httpFail 404) {}).2.1 = emptyDocument :=
  ⟨rfl, c7_not_found_empty.1 ⟨true, none⟩ rfl, rfl, c7_not_found_empty.2.2 {} rfl⟩

/-- In the write phase, the PUT (when reached) presents the token the
pre-write refetch returned. -/
theorem githubWritePhase_presents (env : UpdateEnv) (s : AppState) (evs : List Event)
    (shaR : String) (h : env.refetch = .ok shaR)
    (he : evs.all (putPresentsSha shaR) = true) :
    (githubWritePhase env s evs).events.all (putPresentsSha shaR) = true := by
  obtain ⟨chk, bok, ref, put, choice, fet⟩ := env
  cases h
  cases put <;>
    simp [githubWritePhase, githubCatch, List.all_append, putPresentsSha, he]

/-- C2 — amended part.  On GitHub, every issued `data.json` PUT presents
the version token returned by the metadata refetch made immediately
before the write (so the token compared by the server is the fresh remote
one, not the pre-call stored token), and a stale-token 409 on the PUT
makes the call fail with the conflict-classified message.  On Dropbox,
every upload request carries `mode: overwrite` and presents no `rev`
token, so a write never fails for staleness (see `c2_counterexample`). -/
theorem c2_versioned_write :
    (∀ (msg : String) (now : Nat) (token : Bool) (env : UpdateEnv) (s : AppState)
        (shaR : String), env.refetch = .ok shaR →
      (updateDataToGitHub msg now token env s).events.all (putPresentsSha shaR) = true) ∧
    (∀ (msg : String) (now : Nat) (env : UpdateEnv) (s : AppState)
        (apiMsg : String) (shaR : String),
      s.isOffline = false → s.isSyncing = false → s.currentSHA = none →
      env.refetch = .ok shaR → env.put = .fail 409 apiMsg →
      (updateDataToGitHub msg now true env s).outcome =
        .failed (some "UPDATE_FAILED") (some 409)
          "Failed to save data to GitHub. Changes saved locally. (Conflict - file was modified elsewhere)") ∧
    (∀ (env : DbxUploadOutcome) (st : DbxState), st.accessToken = true →
      (DropboxSyncProvider.updateData env st).2.1 =
        some { mode := "overwrite", revArg := none }) := by
  refine ⟨?_, ?_, ?_⟩
  · intro msg now token env s shaR h
    obtain ⟨chk, bok, ref, put, choice, fet⟩ := env
    cases h
    cases hoff : s.isOffline
    · cases hsy : s.isSyncing
      · cases token
        · simp [updateDataToGitHub, hoff, hsy, githubCatch, putPresentsSha]
        · cases chk
          · simp only [updateDataToGitHub, hoff, hsy, checkRemoteSHA]
            simp only [Bool.false_eq_true, if_false, Bool.not_true]
            exact githubWritePhase_presents ⟨_, _, _, _, _, _⟩ _ _ shaR rfl
              (by simp [putPresentsSha])
          · simp only [updateDataToGitHub, hoff, hsy, checkRemoteSHA]
            simp only [Bool.false_eq_true, if_false, Bool.not_true]
            exact githubWritePhase_presents ⟨_, _, _, _, _, _⟩ _ _ shaR rfl
              (by simp [putPresentsSha])
          · rename_i r
            cases hc : s.currentSHA
            · simp only [updateDataToGitHub, hoff, hsy, checkRemoteSHA, hc]
              simp only [Bool.false_eq_true, if_false, Bool.not_true]
              exact githubWritePhase_presents ⟨_, _, _, _, _, _⟩ _ _ shaR rfl
                (by simp [putPresentsSha])
            · rename_i c
              by_cases hrc : r = c
              · simp only [updateDataToGitHub, hoff, hsy, checkRemoteSHA, hc]
                simp only [Bool.false_eq_true, if_false, Bool.not_true, hrc, if_true]
                exact githubWritePhase_presents ⟨_, _, _, _, _, _⟩ _ _ shaR rfl
                  (by simp [putPresentsSha])
              · cases choice
                · simp only [updateDataToGitHub, hoff, hsy, checkRemoteSHA, hc,
                    Bool.false_eq_true, if_false, Bool.not_true, hrc]
                  exact githubWritePhase_presents ⟨_, _, _, _, _, _⟩ _ _ shaR rfl
                    (by simp [putPresentsSha])
                · cases fet <;>
                    simp [updateDataToGitHub, hoff, hsy, checkRemoteSHA, hc, hrc,
                      fetchDataFromGitHub, fetchFail, putPresentsSha]
      · simp [updateDataToGitHub, hoff, hsy]
    · simp [updateDataToGitHub, hoff]
  · intro msg now env s apiMsg shaR hoff hsy hcur h1 h2
    obtain ⟨chk, bok, ref, put, choice, fet⟩ := env
    cases h1
    cases h2
    cases chk <;>
      simp [updateDataToGitHub, hoff, hsy, hcur, checkRemoteSHA,
        githubWritePhase, githubCatch, buildErrorMessage]
  · intro env st h
    cases env <;> simp [DropboxSyncProvider.updateData, h]

/-- Witness for `c2_versioned_write`, discharging each hypothesis at a
concrete input. -/
theorem c2_versioned_write_witness :
    (({ check := .ok "s1", refetch := .ok "s1", put := .ok "s2" } : UpdateEnv).refetch =
      .ok "s1" ∧
     (updateDataToGitHub "op" 3 true
        { check := .ok "s1", refetch := .ok "s1", put := .ok "s2" }
        { currentSHA := some "s1" }).events.all (putPresentsSha "s1") = true) ∧
    (({ currentSHA := none } : AppState).isOffline = false ∧
     (updateDataToGitHub "op" 3 true
        { check := .ok "s1", refetch := .ok "s1", put := .fail 409 "conflict" }
        { currentSHA := none }).outcome =
      .failed (some "UPDATE_FAILED") (some 409)
        "Failed to save data to GitHub. Changes saved locally. (Conflict - file was modified elsewhere)") ∧
    ((⟨true, some "rev1"⟩ : DbxState).accessToken = true ∧
     (DropboxSyncProvider.updateData (.ok "rev2") ⟨true, some "rev1"⟩).2.1 =
       some { mode := "overwrite", revArg := none }) :=
  ⟨⟨rfl, c2_versioned_write.1 "op" 3 true
      { check := .ok "s1", refetch := .ok "s1", put := .ok "s2" }
      { currentSHA := some "s1" } "s1" rfl⟩,
   ⟨rfl, c2_versioned_write.2.1 "op" 3
      { check := .ok "s1", refetch := .ok "s1", put := .fail 409 "conflict" }
      { currentSHA := none } "conflict" "s1" rfl rfl rfl rfl rfl⟩,
   ⟨rfl, c2_versioned_write.2.2 (.ok "rev2") ⟨true, some "rev1"⟩ rfl⟩⟩

/-- `logError` always leaves its new entry at the tail of the log: the
eviction only drops from the front. -/
theorem logError_suffix (c m : String) (st : LocalStore) :
    ∃ pre, (logError c m st).errorLog = pre ++ [⟨c, m⟩] := by
  simp only [logError]
  split
  · rename_i h
    have hk : (st.errorLog ++ [⟨c, m⟩] : List ErrorEntry).length - 50 ≤ st.errorLog.length := by
      simp only [List.length_append, List.length_singleton]
      omega
    rw [List.drop_append_of_le_length hk]
    exact ⟨_, rfl⟩
  · exact ⟨st.errorLog, rfl⟩

/-- `logError` keeps the log bounded by 50 entries. -/
theorem logError_length_le (c m : String) (st : LocalStore)
    (h : st.errorLog.length ≤ 50) : (logError c m st).errorLog.length ≤ 50 := by
  simp only [logError]
  split
  · rename_i hgt
    simp only [List.length_drop]
    omega
  · rename_i hle
    simp only [List.length_append, List.length_singleton] at *
    omega

/-- Containment of the write phase: whenever it fails, the catch block
has logged under the `updateDataToGitHub` context, written the backup,
and cleared the flag; and it preserves the 50-entry log bound. -/
theorem githubWritePhase_contained (env : UpdateEnv) (s : AppState) (evs : List Event) :
    (∀ et hs um, (githubWritePhase env s evs).outcome = .failed et hs um →
      (githubWritePhase env s evs).state.store.backup = some s.appData ∧
      (∃ pre emsg, (githubWritePhase env s evs).state.store.errorLog =
        pre ++ [⟨"updateDataToGitHub", emsg⟩]) ∧
      (githubWritePhase env s evs).state.isSyncing = false) ∧
    (s.store.errorLog.length ≤ 50 →
      (githubWritePhase env s evs).state.store.errorLog.length ≤ 50) := by
  obtain ⟨chk, bok, ref, put, choice, fet⟩ := env
  cases ref with
  | fail st =>
      refine ⟨fun et hs um h => ?_, fun hb => logError_length_le _ _ _ hb⟩
      obtain ⟨pre, hp⟩ := logError_suffix "updateDataToGitHub"
        ("Failed to fetch file SHA (status: " ++ toString st ++ ")") s.store
      exact ⟨rfl, ⟨pre, _, hp⟩, rfl⟩
  | ok sha =>
      cases put with
      | ok newSha =>
          refine ⟨fun et hs um h => absurd h (by simp [githubWritePhase]), fun hb => ?_⟩
          simpa [githubWritePhase, saveToLocalStorage] using hb
      | fail st apiMsg =>
          refine ⟨fun et hs um h => ?_, fun hb => logError_length_le _ _ _ hb⟩
          obtain ⟨pre, hp⟩ := logError_suffix "updateDataToGitHub"
            ("Failed to update data (status: " ++ toString st ++ "): " ++ apiMsg) s.store
          exact ⟨rfl, ⟨pre, _, hp⟩, rfl⟩
      | failNonJson st =>
          refine ⟨fun et hs um h => ?_, fun hb => logError_length_le _ _ _ hb⟩
          obtain ⟨pre, hp⟩ := logError_suffix "updateDataToGitHub"
            "Failed to parse error response" s.store
          exact ⟨rfl, ⟨pre, _, hp⟩, rfl⟩

/-- C10 — confirmed.  The embedded `updateDataToGitHub` is a total
function (every `throw` site of the source is routed to the embedded
catch handler, mirroring the single `try/catch` that makes the JS
promise always resolve), and whenever a call ends in the `failed`
outcome, the final state has the document saved to the local backup, the
bounded error log extended with an entry in the `updateDataToGitHub`
context at its tail, and the syncing flag cleared; the 50-entry log
bound is preserved by every call. -/
theorem c10_failures_contained (msg : String) (now : Nat) (token : Bool)
    (env : UpdateEnv) (s : AppState) :
    (∀ et hs um, (updateDataToGitHub msg now token env s).outcome = .failed et hs um →
      (updateDataToGitHub msg now token env s).state.store.backup = some s.appData ∧
      (∃ pre emsg, (updateDataToGitHub msg now token env s).state.store.errorLog =
        pre ++ [⟨"updateDataToGitHub", emsg⟩]) ∧
      (updateDataToGitHub msg now token env s).state.isSyncing = false) ∧
    (s.store.errorLog.length ≤ 50 →
      (updateDataToGitHub msg now token env s).state.store.errorLog.length ≤ 50) := by
  obtain ⟨chk, bok, ref, put, choice, fet⟩ := env
  cases hoff : s.isOffline
  · cases hsy : s.isSyncing
    · cases token
      · -- missing token: straight to the catch handler
        simp only [updateDataToGitHub, hoff, hsy, Bool.false_eq_true, if_false,
          Bool.not_false, if_true]
        refine ⟨fun et hs um h => ?_, fun hb => logError_length_le _ _ _ hb⟩
        obtain ⟨pre, hp⟩ := logError_suffix "updateDataToGitHub"
          "GitHub token not configured" s.store
        exact ⟨rfl, ⟨pre, _, hp⟩, rfl⟩
      · cases chk with
        | err m =>
            simp only [updateDataToGitHub, hoff, hsy, checkRemoteSHA,
              Bool.false_eq_true, if_false, Bool.not_true]
            exact ⟨(githubWritePhase_contained _ _ _).1,
              fun hb => (githubWritePhase_contained _ _ _).2 (logError_length_le _ _ _ hb)⟩
        | httpFail st =>
            simp only [updateDataToGitHub, hoff, hsy, checkRemoteSHA,
              Bool.false_eq_true, if_false, Bool.not_true]
            exact ⟨(githubWritePhase_contained _ _ _).1,
              fun hb => (githubWritePhase_contained _ _ _).2 (logError_length_le _ _ _ hb)⟩
        | ok r =>
            cases hc : s.currentSHA with
            | none =>
                simp only [updateDataToGitHub, hoff, hsy, checkRemoteSHA, hc,
                  Bool.false_eq_true, if_false, Bool.not_true]
                exact ⟨(githubWritePhase_contained _ _ _).1,
                  fun hb => (githubWritePhase_contained _ _ _).2 hb⟩
            | some c =>
                by_cases hrc : r = c
                · simp only [updateDataToGitHub, hoff, hsy, checkRemoteSHA, hc, hrc,
                    Bool.false_eq_true, if_false, Bool.not_true, if_true]
                  exact ⟨(githubWritePhase_contained _ _ _).1,
                    fun hb => (githubWritePhase_contained _ _ _).2 hb⟩
                · cases choice
                  · simp only [updateDataToGitHub, hoff, hsy, checkRemoteSHA, hc, hrc,
                      Bool.false_eq_true, if_false, Bool.not_true]
                    exact ⟨(githubWritePhase_contained _ _ _).1,
                      fun hb => (githubWritePhase_contained _ _ _).2 hb⟩
                  · cases fet <;>
                      refine ⟨fun et hs um h => absurd h (by
                          simp [updateDataToGitHub, hoff, hsy, checkRemoteSHA, hc, hrc,
                            fetchDataFromGitHub, fetchFail]),
                        fun hb => by
                          first
                          | simpa [updateDataToGitHub, hoff, hsy, checkRemoteSHA, hc, hrc,
                              fetchDataFromGitHub, fetchFail] using hb
                          | (simp only [updateDataToGitHub, hoff, hsy, checkRemoteSHA, hc,
                              hrc, Bool.false_eq_true, if_false, Bool.not_true,
                              fetchDataFromGitHub, fetchFail]
                             exact logError_length_le _ _ _ hb)⟩
    · simp only [updateDataToGitHub, hoff, hsy, Bool.false_eq_true, if_false, if_true]
      exact ⟨fun et hs um h => absurd h (by simp), fun hb => hb⟩
  · simp only [updateDataToGitHub, hoff, if_true]
    exact ⟨fun et hs um h => absurd h (by simp), fun hb => hb⟩

/-- Witness for `c10_failures_contained`, discharging the implications at
a concrete failing (missing token) call. -/
theorem c10_failures_contained_witness :
    ((updateDataToGitHub "op" 3 false defaultUpdateEnv { appData := emptyDocument }).state.store.backup =
      some emptyDocument ∧
     (∃ pre emsg,
        (updateDataToGitHub "op" 3 false defaultUpdateEnv
          { appData := emptyDocument }).state.store.errorLog =
          pre ++ [⟨"updateDataToGitHub", emsg⟩]) ∧
     (updateDataToGitHub "op" 3 false defaultUpdateEnv
        { appData := emptyDocument }).state.isSyncing = false) ∧
    (updateDataToGitHub "op" 3 false defaultUpdateEnv
      { appData := emptyDocument }).state.store.errorLog.length ≤ 50 :=
  ⟨(c10_failures_contained "op" 3 false defaultUpdateEnv { appData := emptyDocument }).1
      (some "NO_TOKEN") none
      "Failed to save data to GitHub. Changes saved locally. (GitHub token not configured)"
      rfl,
   (c10_failures_contained "op" 3 false defaultUpdateEnv { appData := emptyDocument }).2
      (by decide)⟩

/-! ## Counting lemmas for the priority bound -/

theorem countP_set_le_succ {α : Type} (p : α → Bool) (l : List α) (i : Nat) (x : α) :
    (l.set i x).countP p ≤ l.countP p + 1 := by
  induction l generalizing i with
  | nil => simp
  | cons a t ih =>
      cases i with
      | zero =>
          simp only [List.set, List.countP_cons]
          split_ifs <;> omega
      | succ n =>
          simp only [List.set, List.countP_cons]
          have := ih n
          split_ifs <;> omega

theorem countP_set_le_of_neg {α : Type} (p : α → Bool) (l : List α) (i : Nat) (x : α)
    (hx : p x = false) : (l.set i x).countP p ≤ l.countP p := by
  induction l generalizing i with
  | nil => simp
  | cons a t ih =>
      cases i with
      | zero =>
          simp only [List.set, List.countP_cons, hx, Bool.false_eq_true, if_false]
          split_ifs <;> omega
      | succ n =>
          simp only [List.set, List.countP_cons]
          have := ih n
          split_ifs <;> omega

theorem countP_set_eq_of_same {α : Type} (p : α → Bool) (l : List α) (i : Nat) (x y : α)
    (hy : l.get? i = some y) (hxy : p x = p y) :
    (l.set i x).countP p = l.countP p := by
  induction l generalizing i with
  | nil => simp at hy
  | cons a t ih =>
      cases i with
      | zero =>
          simp only [List.get?] at hy
          obtain rfl : a = y := by injection hy
          simp only [List.set, List.countP_cons, hxy]
      | succ n =>
          simp only [List.get?] at hy
          simp only [List.set, List.countP_cons, ih n hy]

theorem countP_eraseIdx_le {α : Type} (p : α → Bool) (l : List α) (i : Nat) :
    (l.eraseIdx i).countP p ≤ l.countP p := by
  induction l generalizing i with
  | nil => simp
  | cons a t ih =>
      cases i with
      | zero =>
          simp only [List.eraseIdx, List.countP_cons]
          split_ifs <;> omega
      | succ n =>
          simp only [List.eraseIdx, List.countP_cons]
          have := ih n
          split_ifs <;> omega

theorem alookup_mem {α : Type} (m : List (String × α)) (k : String) (v : α)
    (h : alookup m k = some v) : (k, v) ∈ m := by
  induction m with
  | nil => simp [alookup] at h
  | cons hd tl ih =>
      obtain ⟨k0, w⟩ := hd
      by_cases h0 : k0 = k
      · subst h0
        simp only [alookup, if_true, eq_self_iff_true] at h
        obtain rfl : w = v := by injection h
        exact List.mem_cons_self _ _
      · simp only [alookup, if_neg h0] at h
        exact List.mem_cons_of_mem _ (ih h)

theorem mem_aset {α : Type} (m : List (String × α)) (k : String) (v : α)
    (x : String × α) (h : x ∈ aset m k v) : x = (k, v) ∨ x ∈ m := by
  induction m with
  | nil => simpa [aset] using h
  | cons hd tl ih =>
      obtain ⟨k0, w⟩ := hd
      by_cases h0 : k0 = k
      · subst h0
        simp only [aset, if_true, eq_self_iff_true, List.mem_cons] at h
        rcases h with h1 | h1
        · exact Or.inl h1
        · exact Or.inr (List.mem_cons_of_mem _ h1)
      · simp only [aset, if_neg h0, List.mem_cons] at h
        rcases h with h1 | h1
        · exact Or.inr (by simp [h1])
        · rcases ih h1 with h2 | h2
          · exact Or.inl h2
          · exact Or.inr (List.mem_cons_of_mem _ h2)

/-- From the document-wide bound to the bound of one looked-up day. -/
theorem dayPriorityBound_lookup (d : Document) (hb : dayPriorityBound d = true)
    (k : String) (e : DateEntry) (he : alookup d.dateEntries k = some e) :
    priorityCount e.tasks ≤ 3 := by
  have hm := alookup_mem _ _ _ he
  have := List.all_eq_true.mp hb (k, e) hm
  simpa using this

/-- Updating one day with a bounded record preserves the document-wide
bound. -/
theorem dayPriorityBound_aset (d : Document) (hb : dayPriorityBound d = true)
    (k : String) (e : DateEntry) (he : priorityCount e.tasks ≤ 3) :
    dayPriorityBound { d with dateEntries := aset d.dateEntries k e } = true := by
  apply List.all_eq_true.mpr
  intro x hx
  rcases mem_aset _ _ _ _ hx with h | h
  · subst h
    simpa using he
  · exact List.all_eq_true.mp hb x h

/-- C8 — amended part.  The 3-priority-per-day bound is preserved by
toggling priority (with an attempt to mark a fourth priority task
rejected, leaving the document unchanged), by adding, completing and
deleting tasks — but not by `shiftTaskDate`, which performs no check on
the target day (see `c8_counterexample`). -/
theorem c8_priority_bound (d : Document) (k : String) (i : Nat) (name : String)
    (c : Bool) (hb : dayPriorityBound d = true) :
    dayPriorityBound (toggleTaskPriority d k i) = true ∧
    dayPriorityBound (addTask d k name) = true ∧
    dayPriorityBound (deleteTask d k i) = true ∧
    dayPriorityBound (toggleTask d k i c) = true ∧
    (∀ (e : DateEntry) (task : Task), alookup d.dateEntries k = some e →
      e.tasks.get? i = some task → truthy task.priority = false →
      3 ≤ priorityCount e.tasks → toggleTaskPriority d k i = d) := by
  refine ⟨?_, ?_, ?_, ?_, ?_⟩
  · -- toggleTaskPriority preserves the bound
    cases hlk : alookup d.dateEntries k with
    | none =>
        simp only [toggleTaskPriority, getDateEntry, hlk, List.get?]
        exact dayPriorityBound_aset d hb k {} (by simp [priorityCount])
    | some e =>
        simp only [toggleTaskPriority, getDateEntry, hlk]
        cases hti : e.tasks.get? i with
        | none => exact hb
        | some task =>
            dsimp only
            split_ifs with hcond
            · exact hb
            · refine dayPriorityBound_aset d hb k _ ?_
              have hle := dayPriorityBound_lookup d hb k e hlk
              dsimp only
              by_cases hpr : truthy task.priority = true
              · refine le_trans (countP_set_le_of_neg _ e.tasks i _ ?_) hle
                have hpr2 : task.priority.getD false = true := hpr
                simp [truthy, hpr2]
              · have hprf : truthy task.priority = false := by
                  revert hpr
                  cases truthy task.priority <;> simp
                have hlt : ¬ 3 ≤ priorityCount e.tasks := fun hge => hcond ⟨hprf, hge⟩
                refine le_trans
                  (countP_set_le_succ (fun t : Task => truthy t.priority) e.tasks i _) ?_
                simp only [priorityCount] at hlt
                omega
  · -- addTask preserves the bound
    by_cases hname : name.trim = ""
    · simpa [addTask, hname] using hb
    · cases hlk : alookup d.dateEntries k with
      | none =>
          simp only [addTask, hname, if_neg hname, getDateEntry, hlk, if_false]
          refine dayPriorityBound_aset
            { d with dateEntries := aset d.dateEntries k ⟨[], []⟩ }
            (dayPriorityBound_aset d hb k ⟨[], []⟩ (by simp [priorityCount])) k _ ?_
          simp [priorityCount, truthy]
      | some e =>
          simp only [addTask, hname, if_neg hname, getDateEntry, hlk, if_false]
          refine dayPriorityBound_aset d hb k _ ?_
          have hle := dayPriorityBound_lookup d hb k e hlk
          have hx : (fun t : Task => truthy t.priority) ⟨name.trim, false, none⟩ = false := rfl
          simp only [priorityCount] at hle
          simp only [priorityCount, List.countP_append, List.countP_cons, List.countP_nil,
            hx, Bool.false_eq_true, if_false]
          omega
  · -- deleteTask preserves the bound
    cases hlk : alookup d.dateEntries k with
    | none =>
        simp only [deleteTask, getDateEntry, hlk]
        refine dayPriorityBound_aset
          { d with dateEntries := aset d.dateEntries k ⟨[], []⟩ }
          (dayPriorityBound_aset d hb k ⟨[], []⟩ (by simp [priorityCount])) k _ ?_
        simp [priorityCount]
    | some e =>
        simp only [deleteTask, getDateEntry, hlk]
        refine dayPriorityBound_aset d hb k _ ?_
        exact le_trans (countP_eraseIdx_le _ _ _) (dayPriorityBound_lookup d hb k e hlk)
  · -- toggleTask preserves the bound
    cases hlk : alookup d.dateEntries k with
    | none =>
        simp only [toggleTask, getDateEntry, hlk, List.get?]
        exact dayPriorityBound_aset d hb k {} (by simp [priorityCount])
    | some e =>
        simp only [toggleTask, getDateEntry, hlk]
        cases hti : e.tasks.get? i with
        | none => exact hb
        | some task =>
            dsimp only
            refine dayPriorityBound_aset d hb k _ ?_
            have heq := countP_set_eq_of_same (fun t : Task => truthy t.priority) e.tasks i
              ⟨task.name, c, task.priority⟩ task hti rfl
            have hle := dayPriorityBound_lookup d hb k e hlk
            exact le_trans (le_of_eq heq) hle
  · -- a fourth priority mark is rejected and the document unchanged
    intro e task hlk hti hprf hge
    simp only [toggleTaskPriority, getDateEntry, hlk, hti]
    exact if_pos ⟨hprf, hge⟩

/-- Witness for `c8_priority_bound` at a concrete document with a full
priority day. -/
theorem c8_priority_bound_witness :
    dayPriorityBound
        { dateEntries :=
            [("2025-01-01",
              { tasks := [⟨"p1", false, some true⟩, ⟨"p2", false, some true⟩,
                          ⟨"p3", false, some true⟩, ⟨"q", false, none⟩] })] } = true ∧
    (dayPriorityBound
        (toggleTaskPriority
          { dateEntries :=
              [("2025-01-01",
                { tasks := [⟨"p1", false, some true⟩, ⟨"p2", false, some true⟩,
                            ⟨"p3", false, some true⟩, ⟨"q", false, none⟩] })] }
          "2025-01-01" 3) = true ∧
     dayPriorityBound
        (addTask
          { dateEntries :=
              [("2025-01-01",
                { tasks := [⟨"p1", false, some true⟩, ⟨"p2", false, some true⟩,
                            ⟨"p3", false, some true⟩, ⟨"q", false, none⟩] })] }
          "2025-01-01" "new") = true ∧
     dayPriorityBound
        (deleteTask
          { dateEntries :=
              [("2025-01-01",
                { tasks := [⟨"p1", false, some true⟩, ⟨"p2", false, some true⟩,
                            ⟨"p3", false, some true⟩, ⟨"q", false, none⟩] })] }
          "2025-01-01" 3) = true ∧
     dayPriorityBound
        (toggleTask
          { dateEntries :=
              [("2025-01-01",
                { tasks := [⟨"p1", false, some true⟩, ⟨"p2", false, some true⟩,
                            ⟨"p3", false, some true⟩, ⟨"q", false, none⟩] })] }
          "2025-01-01" 3 true) = true ∧
     (∀ (e : DateEntry) (task : Task),
        alookup
          ({ dateEntries :=
              [("2025-01-01",
                { tasks := [⟨"p1", false, some true⟩, ⟨"p2", false, some true⟩,
                            ⟨"p3", false, some true⟩, ⟨"q", false, none⟩] })] } :
            Document).dateEntries "2025-01-01" = some e →
        e.tasks.get? 3 = some task → truthy task.priority = false →
        3 ≤ priorityCount e.tasks →
        toggleTaskPriority
          { dateEntries :=
              [("2025-01-01",
                { tasks := [⟨"p1", false, some true⟩, ⟨"p2", false, some true⟩,
                            ⟨"p3", false, some true⟩, ⟨"q", false, none⟩] })] }
          "2025-01-01" 3 =
          { dateEntries :=
              [("2025-01-01",
                { tasks := [⟨"p1", false, some true⟩, ⟨"p2", false, some true⟩,
                            ⟨"p3", false, some true⟩, ⟨"q", false, none⟩] })] })) :=
  ⟨by decide,
   c8_priority_bound
     { dateEntries :=
         [("2025-01-01",
           { tasks := [⟨"p1", false, some true⟩, ⟨"p2", false, some true⟩,
                       ⟨"p3", false, some true⟩, ⟨"q", false, none⟩] })] }
     "2025-01-01" 3 "new" true (by decide)⟩

end DailyBoard
